import Mathlib

/-!
# Verification of the Medieval-Game runtime systems

A shallow embedding, in Lean 4, of the state-bearing gameplay logic of the
Medieval-Game repository: the player avatar (`Character3D`), the enemy
combatant (`Enemy`), the boss phase machine (`Boss`), the quest ledger
(`useQuestStore`), the cutscene player (`useCutsceneStore`), and the
movement/collision controller.

JavaScript numbers are modelled as `ℚ` (all arithmetic the game performs on
them — addition, subtraction, multiplication by constants such as `1.5` or
`0.3`, `Math.floor`, `Math.min`, `Math.max`, comparison — is exact on the
values the game manipulates, so `ℚ` is a faithful carrier).  Mutable class
fields become structure fields; a method mutating `this` becomes a function
`State → args → State`.  Display-only string fields (titles, descriptions,
dialogue text) and pure rendering state (meshes, materials, animation
phases) are omitted: they never feed back into the logic that is verified
here.  Fire-and-forget `setTimeout` callbacks are modelled as explicit
pending events that an environment step may deliver later.
-/

namespace MedievalGame

/-! ## Character3D — the player avatar (src/unnamed/part_001, lines 278–1155)

RPG stats and combat fields of `Character3D`, with the field initializers of
lines 326–348 as the initial state.  `isAttacking`, cooldown timers and the
input/camera/mesh state do not participate in the claims and are omitted. -/

structure AvatarState where
  maxHealth : ℚ
  currentHealth : ℚ
  stamina : ℚ
  maxStamina : ℚ
  mana : ℚ
  maxMana : ℚ
  level : ℕ
  experience : ℚ
  experienceToNextLevel : ℚ
  attackPower : ℚ
  defense : ℚ
  isBlocking : Bool
  isDodging : Bool
  deriving Repr, DecidableEq

namespace Character3D

/-- The avatar as constructed: the field initializers of `Character3D`. -/
def initialAvatar : AvatarState :=
  { maxHealth := 100, currentHealth := 100
    stamina := 100, maxStamina := 100
    mana := 50, maxMana := 50
    level := 1, experience := 0, experienceToNextLevel := 100
    attackPower := 10, defense := 5
    isBlocking := false, isDodging := false }

/-- `Character3D.takeDamage(amount)` (lines 969–983).  If blocking, the
amount is reduced by defense with a floor of 1; health is decremented and
clamped at 0; `die()` is invoked when the decremented health is `≤ 0`.
`die()` itself (lines 985–988) only logs, so the second component counts
how many times it was invoked during this call. -/
def takeDamage (s : AvatarState) (amount : ℚ) : AvatarState × ℕ :=
  let amount' := if s.isBlocking then max 1 (amount - s.defense) else amount
  let h := s.currentHealth - amount'
  if h ≤ 0 then ({ s with currentHealth := 0 }, 1)
  else ({ s with currentHealth := h }, 0)

/-- `Character3D.levelUp()` (lines 1002–1019): one level increment with the
threshold multiplied by 1.5 and floored, all resource pools grown and
refilled, attack power and defense incremented. -/
def levelUp (s : AvatarState) : AvatarState :=
  { s with
    level := s.level + 1
    experience := s.experience - s.experienceToNextLevel
    experienceToNextLevel := ((⌊s.experienceToNextLevel * (3/2 : ℚ)⌋ : ℤ) : ℚ)
    maxHealth := s.maxHealth + 10
    currentHealth := s.maxHealth + 10
    maxStamina := s.maxStamina + 5
    stamina := s.maxStamina + 5
    maxMana := s.maxMana + 5
    mana := s.maxMana + 5
    attackPower := s.attackPower + 2
    defense := s.defense + 1 }

/-- `Character3D.gainExperience(amount)` (lines 991–1000).  Note the source
uses a single `if (this.experience >= this.experienceToNextLevel)` check —
not a loop — so at most one `levelUp` happens per call. -/
def gainExperience (s : AvatarState) (amount : ℚ) : AvatarState :=
  let s₁ := { s with experience := s.experience + amount }
  if s₁.experienceToNextLevel ≤ s₁.experience then levelUp s₁ else s₁

/-- The stat-regeneration tail of `Character3D.update` (lines 885–893):
stamina regenerates by `10·delta` (capped) only when not dodging and the
velocity is negligible; mana regenerates by `2·delta` (capped)
unconditionally.  `velLenSq` is `currentVelocity.lengthSq()`. -/
def regenTail (s : AvatarState) (velLenSq delta : ℚ) : AvatarState :=
  let s₁ :=
    if !s.isDodging ∧ velLenSq < 1/100 then
      let st := s.stamina + 10 * delta
      { s with stamina := if s.maxStamina < st then s.maxStamina else st }
    else s
  let m := s₁.mana + 2 * delta
  { s₁ with mana := if s₁.maxMana < m then s₁.maxMana else m }

end Character3D

/-! ## Enemy — generic enemy combatant (src/src/game/entities/Enemy.ts)

Stats copied from the `EnemyType` descriptor in the constructor (lines
43–81), plus the `isDead` flag.  Mesh/health-bar/aggro-motion state does not
participate in the claims and is omitted. -/

structure EnemyState where
  currentHealth : ℚ
  maxHealth : ℚ
  attackPower : ℚ
  defense : ℚ
  moveSpeed : ℚ
  attackRange : ℚ
  aggroRange : ℚ
  experienceValue : ℚ
  isAggro : Bool
  isDead : Bool
  deriving Repr, DecidableEq

/-- The `EnemyType` descriptor (Enemy.ts lines 4–15); display fields
(`name`, `color`, `scale`) omitted. -/
structure EnemyType where
  health : ℚ
  attackPower : ℚ
  defense : ℚ
  moveSpeed : ℚ
  attackRange : ℚ
  aggroRange : ℚ
  experience : ℚ
  deriving Repr, DecidableEq

namespace Enemy

/-- The `Enemy` constructor (lines 43–81): stats taken from the type,
health full, not aggro, not dead. -/
def spawn (type : EnemyType) : EnemyState :=
  { currentHealth := type.health, maxHealth := type.health
    attackPower := type.attackPower, defense := type.defense
    moveSpeed := type.moveSpeed, attackRange := type.attackRange
    aggroRange := type.aggroRange, experienceValue := type.experience
    isAggro := false, isDead := false }

/-- The `GOBLIN` entry of `ENEMY_TYPES` (TownScene.ts lines 404–415). -/
def GOBLIN : EnemyType :=
  { health := 30, attackPower := 5, defense := 2, moveSpeed := 2
    attackRange := 3/2, aggroRange := 8, experience := 20 }

/-- `Enemy.die()` (lines 310–342): idempotent; sets `isDead` and starts the
death animation (animation state not modelled). -/
def die (s : EnemyState) : EnemyState :=
  if s.isDead then s else { s with isDead := true }

/-- `Enemy.takeDamage(amount)` (lines 278–308): no-op when dead; otherwise
damage reduced by defense with a floor of 1 is subtracted from health —
with *no* clamp at 0 — and `die()` runs when health drops to `≤ 0`. -/
def takeDamage (s : EnemyState) (amount : ℚ) : EnemyState :=
  if s.isDead then s
  else
    let actualDamage := max 1 (amount - s.defense)
    let s₁ := { s with currentHealth := s.currentHealth - actualDamage }
    if s₁.currentHealth ≤ 0 then die s₁ else s₁

end Enemy

/-! ## Boss phase machine (src/unnamed/part_001, lines 1190–1375)

The `Boss` class extends an `Enemy` base (a variant with `health`,
`maxHealth`, `movementSpeed` fields) and layers the phase machine on top.
Only the fields read or written by `checkPhaseTransition` /
`startPhaseTransition` are modelled.  The 2-second `setTimeout` inside
`startPhaseTransition` (lines 1273–1293) is modelled by the `pendingPhase`
field: starting a transition records the target index, and a separate
`fire` event (the timer elapsing) commits it. -/

structure BossPhase where
  healthThreshold : ℚ
  speedMultiplier : Option ℚ
  damageMultiplier : Option ℚ
  deriving Repr, DecidableEq

structure BossState where
  health : ℚ
  maxHealth : ℚ
  attackPower : ℚ
  movementSpeed : ℚ
  phases : List BossPhase
  currentPhase : ℕ
  phaseTransitioning : Bool
  pendingPhase : Option ℕ
  deriving Repr, DecidableEq

namespace Boss

/-- `Boss.startPhaseTransition(newPhaseIndex)` up to the `setTimeout` (lines
1266–1272): locks the machine and schedules the commit. -/
def startPhaseTransition (s : BossState) (newPhaseIndex : ℕ) : BossState :=
  { s with phaseTransitioning := true, pendingPhase := some newPhaseIndex }

/-- The body of the `setTimeout` callback in `startPhaseTransition` (lines
1273–1293): commit the phase index, apply the phase multipliers, unlock. -/
def finishPhaseTransition (s : BossState) (newPhaseIndex : ℕ) : BossState :=
  match s.phases[newPhaseIndex]? with
  | none => s
  | some newPhase =>
    { s with
      currentPhase := newPhaseIndex
      movementSpeed :=
        match newPhase.speedMultiplier with
        | some m => s.movementSpeed * m
        | none => s.movementSpeed
      attackPower :=
        match newPhase.damageMultiplier with
        | some m => s.attackPower * m
        | none => s.attackPower
      phaseTransitioning := false
      pendingPhase := none }

/-- `Boss.checkPhaseTransition()` (lines 1251–1264): while transitioning or
with no phases do nothing; otherwise start a transition to the *next* phase
index when the health ratio has fallen to (or below) its threshold. -/
def checkPhaseTransition (s : BossState) : BossState :=
  if s.phaseTransitioning ∨ s.phases = [] then s
  else
    let healthPercent := s.health / s.maxHealth
    let nextPhaseIndex := s.currentPhase + 1
    match s.phases[nextPhaseIndex]? with
    | none => s
    | some nextPhase =>
      if healthPercent ≤ nextPhase.healthThreshold then
        startPhaseTransition s nextPhaseIndex
      else s

/-- One interaction with the boss phase machine: either a frame in which the
environment has left the boss's health at `newHealth` (damage from the
player is applied by the inherited `takeDamage`; `Boss.update` then runs
`checkPhaseTransition`, line 1243), or the pending transition timer
firing. -/
inductive BossEvent where
  | frame (newHealth : ℚ)
  | fire
  deriving Repr, DecidableEq

def step (s : BossState) : BossEvent → BossState
  | .frame newHealth => checkPhaseTransition { s with health := newHealth }
  | .fire =>
    match s.pendingPhase with
    | some i => finishPhaseTransition s i
    | none => s

def run (s : BossState) (evs : List BossEvent) : BossState :=
  evs.foldl step s

/-- Well-formedness linking the transition lock to the pending timer: a
pending commit exists exactly while `phaseTransitioning`, and it always
targets the successor of the current phase, in range.  Holds for any
freshly constructed boss (`pendingPhase = none`, `phaseTransitioning =
false`) and is preserved by `step` (proved below). -/
def WF (s : BossState) : Prop :=
  match s.pendingPhase with
  | some i => s.phaseTransitioning = true ∧ i = s.currentPhase + 1 ∧ i < s.phases.length
  | none => s.phaseTransitioning = false

instance (s : BossState) : Decidable (WF s) := by
  unfold WF; cases s.pendingPhase <;> infer_instance

/-- The phase list of `NecromancerBoss.setupBoss` (lines 1405–1522):
thresholds 100%, 70%, 30%, with the phase-2 and phase-3 multipliers. -/
def necromancerPhases : List BossPhase :=
  [ { healthThreshold := 1, speedMultiplier := none, damageMultiplier := none },
    { healthThreshold := 7/10, speedMultiplier := none, damageMultiplier := some (6/5) },
    { healthThreshold := 3/10, speedMultiplier := some (3/2), damageMultiplier := some (3/2) } ]

/-- A boss with the claim's phase thresholds `[1.0, 0.7, 0.3]` at full
health 100, in phase 0, not transitioning. -/
def bossAtFull : BossState :=
  { health := 100, maxHealth := 100, attackPower := 50, movementSpeed := 1
    phases := necromancerPhases, currentPhase := 0
    phaseTransitioning := false, pendingPhase := none }

end Boss

/-! ## Quest ledger — `useQuestStore` (src/src/game/systems/QuestSystem.ts, lines 1–361)

The zustand store holding `Record<string, Quest>` plus the active/completed
id lists.  The record is modelled as an association list (`lookupQuest` is
property read, `setQuest` is the spread-update `{...quests, [id]: q}`).
Display-only strings (titles, descriptions, target names) and the reward
bundles are omitted; objective `current`/`required` counts are `ℤ`. -/

inductive QuestStatus where
  | not_started
  | in_progress
  | completed
  deriving Repr, DecidableEq

structure QuestObjective where
  id : String
  targetId : String
  required : ℤ
  current : ℤ
  completed : Bool
  deriving Repr, DecidableEq

structure Quest where
  id : String
  level : ℕ
  status : QuestStatus
  objectives : List QuestObjective
  nextQuestId : Option String
  isVisible : Bool
  deriving Repr, DecidableEq

structure QuestStoreState where
  quests : List (String × Quest)
  activeQuestIds : List String
  completedQuestIds : List String
  showQuestLog : Bool
  deriving Repr, DecidableEq

namespace QuestStore

/-- Property read `quests[questId]` on the record. -/
def lookupQuest (m : List (String × Quest)) (questId : String) : Option Quest :=
  match m with
  | [] => none
  | (k, v) :: rest => if k = questId then some v else lookupQuest rest questId

/-- Spread-update `{ ...quests, [questId]: quest }` on the record: replaces
the binding if present, appends it otherwise. -/
def setQuest (m : List (String × Quest)) (questId : String) (quest : Quest) :
    List (String × Quest) :=
  match m with
  | [] => [(questId, quest)]
  | (k, v) :: rest =>
    if k = questId then (k, quest) :: rest
    else (k, v) :: setQuest rest questId quest

/-- The `initialQuests` catalog (lines 69–209): `goblin_slayer` (visible,
successor `cook_assistant`), `cook_assistant` (hidden, successor
`undead_threat`), `undead_threat` (hidden, no successor). -/
def initialQuests : List (String × Quest) :=
  [ ("goblin_slayer",
     { id := "goblin_slayer", level := 1, status := .not_started
       objectives :=
         [ { id := "kill_goblins", targetId := "goblin",
             required := 5, current := 0, completed := false },
           { id := "collect_goblin_mail", targetId := "goblin_mail",
             required := 1, current := 0, completed := false } ]
       nextQuestId := some "cook_assistant", isVisible := true }),
    ("cook_assistant",
     { id := "cook_assistant", level := 2, status := .not_started
       objectives :=
         [ { id := "talk_to_cook", targetId := "lumbridge_cook",
             required := 1, current := 0, completed := false },
           { id := "collect_egg", targetId := "egg",
             required := 1, current := 0, completed := false },
           { id := "collect_milk", targetId := "milk",
             required := 1, current := 0, completed := false },
           { id := "collect_flour", targetId := "flour",
             required := 1, current := 0, completed := false } ]
       nextQuestId := some "undead_threat", isVisible := false }),
    ("undead_threat",
     { id := "undead_threat", level := 5, status := .not_started
       objectives :=
         [ { id := "investigate_swamp", targetId := "lumbridge_swamp",
             required := 1, current := 0, completed := false },
           { id := "kill_skeletons", targetId := "skeleton_warrior",
             required := 3, current := 0, completed := false },
           { id := "defeat_necromancer", targetId := "necromancer_boss",
             required := 1, current := 0, completed := false } ]
       nextQuestId := none, isVisible := false }) ]

/-- The store state right after `initializeQuests()` (lines 218–221). -/
def initializedStore : QuestStoreState :=
  { quests := initialQuests, activeQuestIds := [], completedQuestIds := []
    showQuestLog := false }

/-- `startQuest(questId)` (lines 223–248): fails (`false`, no state change)
unless the quest exists with status NotStarted; otherwise marks it
InProgress and appends it to the active list. -/
def startQuest (st : QuestStoreState) (questId : String) : QuestStoreState × Bool :=
  match lookupQuest st.quests questId with
  | none => (st, false)
  | some quest =>
    if quest.status ≠ QuestStatus.not_started then (st, false)
    else
      ({ st with
         quests := setQuest st.quests questId { quest with status := .in_progress }
         activeQuestIds := st.activeQuestIds ++ [questId] }, true)

/-- `completeQuest(questId)` (lines 301–339): returns unchanged when the
quest is missing *or already Completed* (note: a NotStarted quest passes
this guard); otherwise marks it Completed, sets `isVisible` on the
`nextQuestId` quest if that binding exists, and moves the id from the
active list to the completed list. -/
def completeQuest (st : QuestStoreState) (questId : String) : QuestStoreState :=
  match lookupQuest st.quests questId with
  | none => st
  | some quest =>
    if quest.status = QuestStatus.completed then st
    else
      let updatedQuests := setQuest st.quests questId { quest with status := .completed }
      let updatedQuests :=
        match quest.nextQuestId with
        | some nextId =>
          match lookupQuest updatedQuests nextId with
          | some nextQuest => setQuest updatedQuests nextId { nextQuest with isVisible := true }
          | none => updatedQuests
        | none => updatedQuests
      { st with
        quests := updatedQuests
        activeQuestIds := st.activeQuestIds.filter (· ≠ questId)
        completedQuestIds := st.completedQuestIds ++ [questId] }

/-- `updateObjective(questId, objectiveId, progress)` (lines 250–299): fails
silently unless the quest exists InProgress and the objective exists;
clamps the new progress at `required` with `Math.min`; recomputes the
`completed` flag; sets the quest status to Completed exactly when every
objective is completed, and in that case additionally invokes
`completeQuest` on the already-updated store. -/
def updateObjective (st : QuestStoreState) (questId objectiveId : String)
    (progress : ℤ) : QuestStoreState :=
  match lookupQuest st.quests questId with
  | none => st
  | some quest =>
    if quest.status ≠ QuestStatus.in_progress then st
    else
      match quest.objectives.findIdx? (fun obj => obj.id = objectiveId) with
      | none => st
      | some objectiveIndex =>
        match quest.objectives[objectiveIndex]? with
        | none => st
        | some objective =>
          let newCurrent := min (objective.current + progress) objective.required
          let completed : Bool := decide (objective.required ≤ newCurrent)
          let updatedObjectives :=
            quest.objectives.set objectiveIndex
              { objective with current := newCurrent, completed := completed }
          let allCompleted := updatedObjectives.all (·.completed)
          let updatedQuest :=
            { quest with
              objectives := updatedObjectives
              status := if allCompleted then QuestStatus.completed else .in_progress }
          let st₁ := { st with quests := setQuest st.quests questId updatedQuest }
          if allCompleted then completeQuest st₁ questId else st₁

/-- The auto-complete scenario: start `goblin_slayer` from the initial
catalog, then drive both its objectives to completion through
`updateObjective` (kill 5 goblins, collect the goblin mail). -/
def autoCompleteRun : QuestStoreState :=
  updateObjective
    (updateObjective ((startQuest initializedStore "goblin_slayer").1)
      "goblin_slayer" "kill_goblins" 5)
    "goblin_slayer" "collect_goblin_mail" 1

end QuestStore

/-! ## Cutscene player — `useCutsceneStore` (src/src/game/systems/QuestSystem.ts, lines 786–1009)

Dialogue graph state of the cutscene store.  Dialogue/choice display text,
portraits and the registered `onComplete` / option `action` callbacks are
external side effects with no footprint in the store state and are
omitted; `duration` timers never interact with the three claims proved
here. -/

structure DialogueOption where
  nextId : Option String
  deriving Repr, DecidableEq

structure DialogueNode where
  id : String
  options : Option (List DialogueOption)
  nextId : Option String
  deriving Repr, DecidableEq

structure Cutscene where
  id : String
  skippable : Bool
  dialogues : Option (List DialogueNode)
  deriving Repr, DecidableEq

structure CutsceneStoreState where
  cutscenes : List (String × Cutscene)
  activeCutsceneId : Option String
  isPlaying : Bool
  currentDialogueId : Option String
  deriving Repr, DecidableEq

namespace CutsceneStore

/-- Property read `cutscenes[id]` on the record. -/
def lookupCutscene (m : List (String × Cutscene)) (cutsceneId : String) : Option Cutscene :=
  match m with
  | [] => none
  | (k, v) :: rest => if k = cutsceneId then some v else lookupCutscene rest cutsceneId

/-- `stopCutscene()` (lines 914–934): no-op when nothing is active;
otherwise clears the active id, the playing flag and the dialogue pointer
(the `onComplete` callback is an external effect). -/
def stopCutscene (st : CutsceneStoreState) : CutsceneStoreState :=
  match st.activeCutsceneId with
  | none => st
  | some _ =>
    { st with activeCutsceneId := none, isPlaying := false, currentDialogueId := none }

/-- `skipCutscene()` (lines 901–912): no-op when nothing is active or the
active cutscene is not skippable; otherwise stops the cutscene. -/
def skipCutscene (st : CutsceneStoreState) : CutsceneStoreState :=
  match st.activeCutsceneId with
  | none => st
  | some activeId =>
    match lookupCutscene st.cutscenes activeId with
    | none => st
    | some cutscene =>
      if !cutscene.skippable then st else stopCutscene st

/-- `nextDialogue()` (lines 936–962): guarded no-ops when there is no
active cutscene/dialogue; a no-op when the current node presents a
non-empty choice list; otherwise follows the node's `nextId` link or stops
the cutscene when there is none. -/
def nextDialogue (st : CutsceneStoreState) : CutsceneStoreState :=
  match st.activeCutsceneId, st.currentDialogueId with
  | some activeId, some dialogueId =>
    (match lookupCutscene st.cutscenes activeId with
     | none => st
     | some cutscene =>
       match cutscene.dialogues with
       | none => st
       | some dialogues =>
         match dialogues.find? (fun d => d.id = dialogueId) with
         | none => st
         | some currentDialogue =>
           match currentDialogue.options with
           | some opts =>
             if opts.length > 0 then st
             else followNext st currentDialogue
           | none => followNext st currentDialogue)
  | _, _ => st
where
  /-- The tail of `nextDialogue`: follow `nextId` or stop. -/
  followNext (st : CutsceneStoreState) (currentDialogue : DialogueNode) :
      CutsceneStoreState :=
    match currentDialogue.nextId with
    | some nextId => { st with currentDialogueId := some nextId }
    | none => stopCutscene st

/-- `selectDialogueOption(optionIndex)` (lines 964–992): guarded no-ops when
there is no active cutscene/dialogue, the node has no `options` array, or
`optionIndex` is out of range; otherwise (the option's `action` side
effect is external) follows the option's `nextId` or stops the cutscene. -/
def selectDialogueOption (st : CutsceneStoreState) (optionIndex : ℕ) : CutsceneStoreState :=
  match st.activeCutsceneId, st.currentDialogueId with
  | some activeId, some dialogueId =>
    (match lookupCutscene st.cutscenes activeId with
     | none => st
     | some cutscene =>
       match cutscene.dialogues with
       | none => st
       | some dialogues =>
         match dialogues.find? (fun d => d.id = dialogueId) with
         | none => st
         | some currentDialogue =>
           match currentDialogue.options with
           | none => st
           | some opts =>
             match opts[optionIndex]? with
             | none => st
             | some selectedOption =>
               match selectedOption.nextId with
               | some nextId => { st with currentDialogueId := some nextId }
               | none => stopCutscene st)
  | _, _ => st

/-- `getCurrentDialogue()` (lines 999–1008). -/
def getCurrentDialogue (st : CutsceneStoreState) : Option DialogueNode :=
  match st.activeCutsceneId, st.currentDialogueId with
  | some activeId, some dialogueId =>
    (match lookupCutscene st.cutscenes activeId with
     | none => none
     | some cutscene =>
       match cutscene.dialogues with
       | none => none
       | some dialogues => dialogues.find? (fun d => d.id = dialogueId))
  | _, _ => none

/-- `getActiveCutscene()` (lines 994–997). -/
def getActiveCutscene (st : CutsceneStoreState) : Option Cutscene :=
  match st.activeCutsceneId with
  | none => none
  | some activeId => lookupCutscene st.cutscenes activeId

/-- The dialogue graph of `gamePrologueCutscene` (lines 1280–1347): a
linear chain with one branching node (`intro4`) whose two choices rejoin at
`intro6`. -/
def gamePrologueCutscene : Cutscene :=
  { id := "game_prologue", skippable := true
    dialogues := some
      [ { id := "intro1", options := none, nextId := some "intro2" },
        { id := "intro2", options := none, nextId := some "intro3" },
        { id := "intro3", options := none, nextId := some "intro4" },
        { id := "intro4",
          options := some
            [ { nextId := some "intro5_help" },
              { nextId := some "intro5_later" } ],
          nextId := none },
        { id := "intro5_help", options := none, nextId := some "intro6" },
        { id := "intro5_later", options := none, nextId := some "intro6" },
        { id := "intro6", options := none, nextId := none } ] }

end CutsceneStore

/-! ## Movement collision (src/unnamed/part_001, lines 826–854 and 1074–1098)

The axis-aligned bounding-box test of `Character3D.checkCollision` and the
full-move / slide-move resolution inside `Character3D.update`.  Only the
horizontal coordinates of the candidate position matter: the character's
collision box is built from `newPosition.x/z` and the fixed `groundY`
(`checkCollision` ignores `newPosition.y`), so positions are `(x, z)`
pairs.  Collider boxes are taken as inputs (in the source they are
`Box3.setFromObject` of registered meshes). -/

structure Vec3 where
  x : ℚ
  y : ℚ
  z : ℚ
  deriving Repr, DecidableEq

structure Box3 where
  min : Vec3
  max : Vec3
  deriving Repr, DecidableEq

/-- `THREE.Box3.intersectsBox`: closed-interval overlap on all three axes. -/
def Box3.intersects (a b : Box3) : Bool :=
  (a.min.x ≤ b.max.x && b.min.x ≤ a.max.x) &&
  (a.min.y ≤ b.max.y && b.min.y ≤ a.max.y) &&
  (a.min.z ≤ b.max.z && b.min.z ≤ a.max.z)

namespace Movement

/-- The character bounding box of `checkCollision` (lines 1076–1089):
half-extent `boxSize = 0.3` around `(x, z)`, from `groundY` up to
`groundY + 2.5`. -/
def characterBox (groundY x z : ℚ) : Box3 :=
  let boxSize : ℚ := 3/10
  { min := { x := x - boxSize, y := groundY, z := z - boxSize }
    max := { x := x + boxSize, y := groundY + 5/2, z := z + boxSize } }

/-- `Character3D.checkCollision(newPosition)` (lines 1074–1098): true iff
the character box at the candidate position intersects some collider. -/
def checkCollision (groundY x z : ℚ) (collisionObjects : List Box3) : Bool :=
  collisionObjects.any (fun obj => (characterBox groundY x z).intersects obj)

/-- The collision-resolution of `Character3D.update` (lines 830–854),
transcribed imperatively: accept the full move if collision-free; otherwise
compute `slideX = (new.x, old.z)` and `slideZ = (old.x, new.z)` — both from
the *pre-move* position — then assign `position.x` if `slideX` is free and
afterwards `position.z` if `slideZ` is free. -/
def moveStep (groundY oldX oldZ newX newZ : ℚ) (collisionObjects : List Box3) : ℚ × ℚ :=
  if !checkCollision groundY newX newZ collisionObjects then (newX, newZ)
  else
    let slideX := (newX, oldZ)
    let slideZ := (oldX, newZ)
    let p₀ := (oldX, oldZ)
    let p₁ := if !checkCollision groundY slideX.1 slideX.2 collisionObjects
              then (slideX.1, p₀.2) else p₀
    let p₂ := if !checkCollision groundY slideZ.1 slideZ.2 collisionObjects
              then (p₁.1, slideZ.2) else p₁
    p₂

end Movement

/-! ## Helper lemmas -/

/-- One avatar `takeDamage` call never changes `maxHealth`. -/
theorem avatar_takeDamage_maxHealth (s : AvatarState) (d : ℚ) :
    (Character3D.takeDamage s d).1.maxHealth = s.maxHealth := by
  simp only [Character3D.takeDamage]
  split <;> split <;> rfl

/-- One avatar `takeDamage` call with positive damage keeps health within
`[0, maxHealth]`. -/
theorem avatar_takeDamage_bounds (s : AvatarState) (d : ℚ) (hd : 0 < d)
    (h0 : 0 ≤ s.currentHealth) (h1 : s.currentHealth ≤ s.maxHealth) :
    0 ≤ (Character3D.takeDamage s d).1.currentHealth ∧
    (Character3D.takeDamage s d).1.currentHealth ≤ s.maxHealth := by
  have hpos : 0 < (if s.isBlocking then max 1 (d - s.defense) else d) := by
    split
    · exact lt_of_lt_of_le one_pos (le_max_left _ _)
    · exact hd
  simp only [Character3D.takeDamage]
  by_cases hle : s.currentHealth - (if s.isBlocking then max 1 (d - s.defense) else d) ≤ 0
  · rw [if_pos hle]
    exact ⟨le_refl 0, le_trans h0 h1⟩
  · rw [if_neg hle]
    push_neg at hle
    refine ⟨le_of_lt hle, ?_⟩
    show s.currentHealth - (if s.isBlocking then max 1 (d - s.defense) else d) ≤ s.maxHealth
    linarith

/-- Avatar health bounds are preserved by any fold of positive damage. -/
theorem avatar_fold_bounds (ds : List ℚ) (s : AvatarState)
    (hds : ∀ d ∈ ds, 0 < d) (h0 : 0 ≤ s.currentHealth)
    (h1 : s.currentHealth ≤ s.maxHealth) :
    0 ≤ (ds.foldl (fun t d => (Character3D.takeDamage t d).1) s).currentHealth ∧
    (ds.foldl (fun t d => (Character3D.takeDamage t d).1) s).currentHealth ≤
      (ds.foldl (fun t d => (Character3D.takeDamage t d).1) s).maxHealth := by
  induction ds generalizing s with
  | nil => exact ⟨h0, h1⟩
  | cons d ds ih =>
    have hd : 0 < d := hds d (List.mem_cons_self d ds)
    have hstep := avatar_takeDamage_bounds s d hd h0 h1
    have hmax := avatar_takeDamage_maxHealth s d
    exact ih ((Character3D.takeDamage s d).1)
      (fun d' hd' => hds d' (List.mem_cons_of_mem d hd'))
      hstep.1 (hmax ▸ hstep.2)

/-- One enemy `takeDamage` call: health never increases, `maxHealth` is
untouched, and a result with health `≤ 0` is dead. -/
theorem enemy_takeDamage_step (e : EnemyState) (d : ℚ) :
    (Enemy.takeDamage e d).currentHealth ≤ e.currentHealth ∧
    (Enemy.takeDamage e d).maxHealth = e.maxHealth ∧
    ((Enemy.takeDamage e d).currentHealth ≤ 0 → (Enemy.takeDamage e d).isDead = true) := by
  have hdmg : (1 : ℚ) ≤ max 1 (d - e.defense) := le_max_left _ _
  refine ⟨?_, ?_, ?_⟩
  · by_cases hdead : e.isDead = true
    · simp [Enemy.takeDamage, hdead]
    · by_cases hle : e.currentHealth - max 1 (d - e.defense) ≤ 0
      · simp [Enemy.takeDamage, Enemy.die, hdead, hle]
      · simp [Enemy.takeDamage, Enemy.die, hdead, hle]
  · by_cases hdead : e.isDead = true
    · simp [Enemy.takeDamage, hdead]
    · by_cases hle : e.currentHealth - max 1 (d - e.defense) ≤ 0
      · simp [Enemy.takeDamage, Enemy.die, hdead, hle]
      · simp [Enemy.takeDamage, Enemy.die, hdead, hle]
  · intro hc
    by_cases hdead : e.isDead = true
    · have heq : Enemy.takeDamage e d = e := by simp [Enemy.takeDamage, hdead]
      rw [heq]
      exact hdead
    · by_cases hle : e.currentHealth - max 1 (d - e.defense) ≤ 0
      · simp [Enemy.takeDamage, Enemy.die, hdead, hle]
      · simp [Enemy.takeDamage, Enemy.die, hdead, hle] at hc

/-- Enemy `takeDamage` folds: health never increases, never exceeds max,
and a dead-or-positive start keeps "health `≤ 0` implies dead". -/
theorem enemy_fold_bounds (ds : List ℚ) (e : EnemyState)
    (hinv : e.currentHealth ≤ 0 → e.isDead = true) :
    (ds.foldl Enemy.takeDamage e).currentHealth ≤ e.currentHealth ∧
    (ds.foldl Enemy.takeDamage e).maxHealth = e.maxHealth ∧
    ((ds.foldl Enemy.takeDamage e).currentHealth ≤ 0 →
      (ds.foldl Enemy.takeDamage e).isDead = true) := by
  induction ds generalizing e with
  | nil => exact ⟨le_refl _, rfl, hinv⟩
  | cons d ds ih =>
    have hstep := enemy_takeDamage_step e d
    have hrest := ih (Enemy.takeDamage e d) hstep.2.2
    exact ⟨le_trans hrest.1 hstep.1, hstep.2.1 ▸ hrest.2.1, hrest.2.2⟩

/-- Looking up the key just written by `setQuest` yields the new value. -/
theorem lookupQuest_setQuest_self (m : List (String × Quest)) (k : String) (q : Quest) :
    QuestStore.lookupQuest (QuestStore.setQuest m k q) k = some q := by
  induction m with
  | nil => simp [QuestStore.setQuest, QuestStore.lookupQuest]
  | cons p rest ih =>
    obtain ⟨a, b⟩ := p
    by_cases h : a = k
    · simp [QuestStore.setQuest, QuestStore.lookupQuest, h]
    · simp [QuestStore.setQuest, QuestStore.lookupQuest, h, ih]

/-- Looking up any other key after `setQuest` is unchanged. -/
theorem lookupQuest_setQuest_ne (m : List (String × Quest)) (k k' : String) (q : Quest)
    (h : k ≠ k') :
    QuestStore.lookupQuest (QuestStore.setQuest m k q) k' =
      QuestStore.lookupQuest m k' := by
  induction m with
  | nil => simp [QuestStore.setQuest, QuestStore.lookupQuest, h]
  | cons p rest ih =>
    obtain ⟨a, b⟩ := p
    by_cases ha : a = k
    · subst ha
      simp [QuestStore.setQuest, QuestStore.lookupQuest, h]
    · simp [QuestStore.setQuest, QuestStore.lookupQuest, ha, ih]

/-- Closed form of a successful `updateObjective`: the store is updated
with the recomputed quest, and the trailing auto-`completeQuest` call never
changes anything further (it sees the already-Completed status and bails
out). -/
theorem updateObjective_closed_form
    (st : QuestStoreState) (questId objectiveId : String) (progress : ℤ)
    (q : Quest) (i : ℕ) (obj : QuestObjective)
    (hq : QuestStore.lookupQuest st.quests questId = some q)
    (hstatus : q.status = QuestStatus.in_progress)
    (hfind : q.objectives.findIdx? (fun o => o.id = objectiveId) = some i)
    (hobj : q.objectives[i]? = some obj) :
    QuestStore.updateObjective st questId objectiveId progress =
      { st with
        quests := QuestStore.setQuest st.quests questId
          ({ q with
             objectives := q.objectives.set i
               { obj with
                 current := min (obj.current + progress) obj.required
                 completed := decide (obj.required ≤ min (obj.current + progress) obj.required) }
             status :=
               if (q.objectives.set i
                 { obj with
                   current := min (obj.current + progress) obj.required
                   completed :=
                     decide (obj.required ≤ min (obj.current + progress) obj.required) }).all
                   (·.completed)
               then QuestStatus.completed else QuestStatus.in_progress }) } := by
  have hnn : ¬(q.status ≠ QuestStatus.in_progress) := by simp [hstatus]
  simp only [QuestStore.updateObjective, hq, if_neg hnn, hfind, hobj]
  by_cases hall :
      (q.objectives.set i
        { obj with
          current := min (obj.current + progress) obj.required
          completed :=
            decide (obj.required ≤ min (obj.current + progress) obj.required) }).all
        (·.completed) = true
  · simp only [if_pos hall]
    simp only [QuestStore.completeQuest, lookupQuest_setQuest_self]
    rw [if_pos trivial]
  · rw [if_neg hall]

/-- Destructuring a successful `getCurrentDialogue`: all the guards along
its lookup chain must have succeeded. -/
theorem getCurrentDialogue_eq_some (st : CutsceneStoreState) (node : DialogueNode)
    (h : CutsceneStore.getCurrentDialogue st = some node) :
    ∃ activeId dialogueId cutscene dialogues,
      st.activeCutsceneId = some activeId ∧
      st.currentDialogueId = some dialogueId ∧
      CutsceneStore.lookupCutscene st.cutscenes activeId = some cutscene ∧
      cutscene.dialogues = some dialogues ∧
      dialogues.find? (fun d => d.id = dialogueId) = some node := by
  cases hA : st.activeCutsceneId with
  | none => simp [CutsceneStore.getCurrentDialogue, hA] at h
  | some activeId =>
    cases hD : st.currentDialogueId with
    | none => simp [CutsceneStore.getCurrentDialogue, hA, hD] at h
    | some dialogueId =>
      cases hC : CutsceneStore.lookupCutscene st.cutscenes activeId with
      | none => simp [CutsceneStore.getCurrentDialogue, hA, hD, hC] at h
      | some cutscene =>
        cases hDs : cutscene.dialogues with
        | none => simp [CutsceneStore.getCurrentDialogue, hA, hD, hC, hDs] at h
        | some dialogues =>
          refine ⟨activeId, dialogueId, cutscene, dialogues, rfl, rfl, hC, hDs, ?_⟩
          simpa [CutsceneStore.getCurrentDialogue, hA, hD, hC, hDs] using h

/-- C9: the three cutscene-player no-ops: `selectDialogueOption` on a node
with no option at the requested index, `skipCutscene` when the active
cutscene is not skippable, and `nextDialogue` on a node that presents a
non-empty choice list — each leaves the store state unchanged (and none
can fail). -/
theorem C9_cutscene_noops :
    (∀ (st : CutsceneStoreState) (idx : ℕ) (node : DialogueNode),
      CutsceneStore.getCurrentDialogue st = some node →
      (∀ opts, node.options = some opts → opts.length ≤ idx) →
      CutsceneStore.selectDialogueOption st idx = st) ∧
    (∀ (st : CutsceneStoreState) (cutscene : Cutscene),
      CutsceneStore.getActiveCutscene st = some cutscene →
      cutscene.skippable = false →
      CutsceneStore.skipCutscene st = st) ∧
    (∀ (st : CutsceneStoreState) (node : DialogueNode) (opts : List DialogueOption),
      CutsceneStore.getCurrentDialogue st = some node →
      node.options = some opts →
      0 < opts.length →
      CutsceneStore.nextDialogue st = st) := by
  refine ⟨?_, ?_, ?_⟩
  · intro st idx node hnode hno
    obtain ⟨activeId, dialogueId, cutscene, dialogues, hA, hD, hC, hDs, hF⟩ :=
      getCurrentDialogue_eq_some st node hnode
    cases hopt : node.options with
    | none =>
      simp [CutsceneStore.selectDialogueOption, hA, hD, hC, hDs, hF, hopt]
    | some opts =>
      have hlen : opts.length ≤ idx := hno opts hopt
      have hnone : opts[idx]? = none := List.getElem?_eq_none hlen
      simp [CutsceneStore.selectDialogueOption, hA, hD, hC, hDs, hF, hopt, hnone]
  · intro st cutscene hcs hskip
    cases hA : st.activeCutsceneId with
    | none => simp [CutsceneStore.skipCutscene, hA]
    | some activeId =>
      have hC : CutsceneStore.lookupCutscene st.cutscenes activeId = some cutscene := by
        simpa [CutsceneStore.getActiveCutscene, hA] using hcs
      simp [CutsceneStore.skipCutscene, hA, hC, hskip]
  · intro st node opts hnode hopt hlen
    obtain ⟨activeId, dialogueId, cutscene, dialogues, hA, hD, hC, hDs, hF⟩ :=
      getCurrentDialogue_eq_some st node hnode
    simp [CutsceneStore.nextDialogue, hA, hD, hC, hDs, hF, hopt, hlen]

/-- Witness for C9: the prologue cutscene parked on its branching node
`intro4` (two options): choice index 5 is rejected, advancing is rejected;
and skipping a non-skippable one-node cutscene is rejected. -/
theorem C9_cutscene_noops_witness :
    (CutsceneStore.selectDialogueOption
      { cutscenes := [("game_prologue", CutsceneStore.gamePrologueCutscene)]
        activeCutsceneId := some "game_prologue", isPlaying := true
        currentDialogueId := some "intro4" } 5 =
      { cutscenes := [("game_prologue", CutsceneStore.gamePrologueCutscene)]
        activeCutsceneId := some "game_prologue", isPlaying := true
        currentDialogueId := some "intro4" }) ∧
    (CutsceneStore.skipCutscene
      { cutscenes := [("locked", { id := "locked", skippable := false
                                   dialogues := some [{ id := "n1", options := none
                                                        nextId := none }] })]
        activeCutsceneId := some "locked", isPlaying := true
        currentDialogueId := some "n1" } =
      { cutscenes := [("locked", { id := "locked", skippable := false
                                   dialogues := some [{ id := "n1", options := none
                                                        nextId := none }] })]
        activeCutsceneId := some "locked", isPlaying := true
        currentDialogueId := some "n1" }) ∧
    (CutsceneStore.nextDialogue
      { cutscenes := [("game_prologue", CutsceneStore.gamePrologueCutscene)]
        activeCutsceneId := some "game_prologue", isPlaying := true
        currentDialogueId := some "intro4" } =
      { cutscenes := [("game_prologue", CutsceneStore.gamePrologueCutscene)]
        activeCutsceneId := some "game_prologue", isPlaying := true
        currentDialogueId := some "intro4" }) :=
  ⟨C9_cutscene_noops.1 _ 5
      { id := "intro4"
        options := some [{ nextId := some "intro5_help" }, { nextId := some "intro5_later" }]
        nextId := none }
      (by decide) (by decide),
    C9_cutscene_noops.2.1 _
      { id := "locked", skippable := false
        dialogues := some [{ id := "n1", options := none, nextId := none }] }
      (by decide) (by decide),
    C9_cutscene_noops.2.2 _
      { id := "intro4"
        options := some [{ nextId := some "intro5_help" }, { nextId := some "intro5_later" }]
        nextId := none }
      [{ nextId := some "intro5_help" }, { nextId := some "intro5_later" }]
      (by decide) (by decide) (by decide)⟩

/-- A locked phase machine ignores frames entirely: only the health field
changes. -/
theorem boss_frame_locked (s : BossState) (newHealth : ℚ)
    (htr : s.phaseTransitioning = true) :
    Boss.step s (.frame newHealth) = { s with health := newHealth } := by
  show Boss.checkPhaseTransition { s with health := newHealth } = _
  unfold Boss.checkPhaseTransition
  rw [if_pos (Or.inl htr)]

/-- One step of the boss machine preserves well-formedness and never
decreases the phase index. -/
theorem boss_step_preserves (s : BossState) (e : Boss.BossEvent) (hwf : Boss.WF s) :
    Boss.WF (Boss.step s e) ∧ s.currentPhase ≤ (Boss.step s e).currentPhase := by
  cases e with
  | frame newHealth =>
    by_cases htr : s.phaseTransitioning = true
    · rw [boss_frame_locked s newHealth htr]
      exact ⟨hwf, le_refl _⟩
    · simp only [Boss.step]
      have hpend : s.pendingPhase = none := by
        cases hp : s.pendingPhase with
        | none => rfl
        | some i =>
          exfalso
          have hw := hwf
          simp only [Boss.WF, hp] at hw
          exact htr hw.1
      unfold Boss.checkPhaseTransition
      by_cases hguard :
          ({ s with health := newHealth } : BossState).phaseTransitioning = true ∨
            ({ s with health := newHealth } : BossState).phases = []
      · rw [if_pos hguard]
        exact ⟨hwf, le_refl _⟩
      · rw [if_neg hguard]
        cases hnx : ({ s with health := newHealth } : BossState).phases[s.currentPhase + 1]? with
        | none =>
          simp only [hnx]
          exact ⟨hwf, le_refl _⟩
        | some nextPhase =>
          simp only [hnx]
          by_cases hthr :
              ({ s with health := newHealth } : BossState).health /
                ({ s with health := newHealth } : BossState).maxHealth ≤
                nextPhase.healthThreshold
          · rw [if_pos hthr]
            refine ⟨?_, le_refl _⟩
            have hlen : s.currentPhase + 1 < s.phases.length :=
              (List.getElem?_eq_some.mp hnx).1
            simp only [Boss.WF, Boss.startPhaseTransition]
            exact ⟨trivial, trivial, hlen⟩
          · rw [if_neg hthr]
            exact ⟨hwf, le_refl _⟩
  | fire =>
    cases hp : s.pendingPhase with
    | none =>
      simp only [Boss.step, hp]
      exact ⟨hwf, le_refl _⟩
    | some i =>
      have hw := hwf
      simp only [Boss.WF, hp] at hw
      obtain ⟨htr, hi, hlen⟩ := hw
      simp only [Boss.step, hp]
      unfold Boss.finishPhaseTransition
      cases hgx : s.phases[i]? with
      | none =>
        rw [List.getElem?_eq_getElem hlen] at hgx
        cases hgx
      | some newPhase =>
        simp only [hgx]
        constructor
        · simp [Boss.WF]
        · subst hi
          exact Nat.le_succ _

/-- Over any event sequence the machine stays well-formed and the phase
index is monotone non-decreasing. -/
theorem boss_run_preserves (evs : List Boss.BossEvent) (s : BossState) (hwf : Boss.WF s) :
    Boss.WF (Boss.run s evs) ∧ s.currentPhase ≤ (Boss.run s evs).currentPhase := by
  induction evs generalizing s with
  | nil => exact ⟨hwf, le_refl _⟩
  | cons e evs ih =>
    have hstep := boss_step_preserves s e hwf
    have hrest := ih (Boss.step s e) hstep.1
    exact ⟨hrest.1, le_trans hstep.2 hrest.2⟩

/-- `checkPhaseTransition` on an unlocked machine with a next phase in
range: compare the health ratio with that phase's threshold. -/
theorem checkPhaseTransition_eq_of_next (s : BossState) (np : BossPhase)
    (htr : ¬ s.phaseTransitioning = true)
    (hnp : s.phases[s.currentPhase + 1]? = some np) :
    Boss.checkPhaseTransition s =
      if s.health / s.maxHealth ≤ np.healthThreshold then
        Boss.startPhaseTransition s (s.currentPhase + 1)
      else s := by
  have hf : s.phaseTransitioning = false := by simpa using htr
  have hne : s.phases ≠ [] := by
    intro h
    rw [h] at hnp
    simp at hnp
  simp [Boss.checkPhaseTransition, hf, hne, hnp]

/-- `checkPhaseTransition` on an unlocked machine with no next phase: a
no-op. -/
theorem checkPhaseTransition_eq_of_none (s : BossState)
    (htr : ¬ s.phaseTransitioning = true)
    (hnone : s.phases[s.currentPhase + 1]? = none) :
    Boss.checkPhaseTransition s = s := by
  have hf : s.phaseTransitioning = false := by simpa using htr
  by_cases hemp : s.phases = [] <;>
    simp [Boss.checkPhaseTransition, hf, hemp, hnone]

/-- With the necromancer thresholds `[1.0, 0.7, 0.3]` and max health 100,
one step keeps the phase index at most 1 and never schedules phase 2, as
long as every frame leaves more than 30 health (30% never crossed). -/
theorem boss_necro_step_no_phase2 (s : BossState) (e : Boss.BossEvent)
    (hwf : Boss.WF s) (hcur : s.currentPhase ≤ 1) (hpend : s.pendingPhase ≠ some 2)
    (hph : s.phases = Boss.necromancerPhases) (hmax : s.maxHealth = 100)
    (hev : ∀ h, e = .frame h → 30 < h) :
    Boss.WF (Boss.step s e) ∧ (Boss.step s e).currentPhase ≤ 1 ∧
    (Boss.step s e).pendingPhase ≠ some 2 ∧
    (Boss.step s e).phases = Boss.necromancerPhases ∧
    (Boss.step s e).maxHealth = 100 := by
  refine ⟨(boss_step_preserves s e hwf).1, ?_⟩
  cases e with
  | frame newHealth =>
    have hh : 30 < newHealth := hev newHealth rfl
    by_cases htr : s.phaseTransitioning = true
    · rw [boss_frame_locked s newHealth htr]
      exact ⟨hcur, hpend, hph, hmax⟩
    · simp only [Boss.step]
      have hc01 : s.currentPhase = 0 ∨ s.currentPhase = 1 := by omega
      rcases hc01 with hc | hc
      · have hx : ({ s with health := newHealth } : BossState).phases[
            ({ s with health := newHealth } : BossState).currentPhase + 1]? =
            some { healthThreshold := 7/10, speedMultiplier := none
                   damageMultiplier := some (6/5) } := by
          show s.phases[s.currentPhase + 1]? = _
          rw [hph, hc]
          rfl
        rw [checkPhaseTransition_eq_of_next { s with health := newHealth } _ htr hx]
        by_cases hthr : newHealth / s.maxHealth ≤
            ({ healthThreshold := 7/10, speedMultiplier := none
               damageMultiplier := some (6/5) } : BossPhase).healthThreshold
        · rw [if_pos hthr]
          refine ⟨?_, ?_, hph, hmax⟩
          · show s.currentPhase ≤ 1
            exact hcur
          · show some (s.currentPhase + 1) ≠ some 2
            simp [hc]
        · rw [if_neg hthr]
          exact ⟨hcur, hpend, hph, hmax⟩
      · have hx : ({ s with health := newHealth } : BossState).phases[
            ({ s with health := newHealth } : BossState).currentPhase + 1]? =
            some { healthThreshold := 3/10, speedMultiplier := some (3/2)
                   damageMultiplier := some (3/2) } := by
          show s.phases[s.currentPhase + 1]? = _
          rw [hph, hc]
          rfl
        rw [checkPhaseTransition_eq_of_next { s with health := newHealth } _ htr hx]
        have hthr : ¬(newHealth / s.maxHealth ≤
            ({ healthThreshold := 3/10, speedMultiplier := some (3/2)
               damageMultiplier := some (3/2) } : BossPhase).healthThreshold) := by
          show ¬(newHealth / s.maxHealth ≤ 3/10)
          rw [hmax, not_le, lt_div_iff₀ (by norm_num : (0:ℚ) < 100)]
          linarith
        rw [if_neg hthr]
        exact ⟨hcur, hpend, hph, hmax⟩
  | fire =>
    cases hp : s.pendingPhase with
    | none =>
      simp only [Boss.step, hp]
      exact ⟨hcur, by simp, hph, hmax⟩
    | some i =>
      have hw := hwf
      simp only [Boss.WF, hp] at hw
      obtain ⟨htr, hi, hlen⟩ := hw
      have hi2 : i ≠ 2 := fun h => hpend (hp.trans (by rw [h]))
      have hile : i ≤ 1 := by omega
      simp only [Boss.step, hp]
      unfold Boss.finishPhaseTransition
      cases hgx : s.phases[i]? with
      | none =>
        rw [List.getElem?_eq_getElem hlen] at hgx
        cases hgx
      | some newPhase =>
        simp only [hgx]
        exact ⟨hile, by simp, hph, hmax⟩

/-- Folding the previous lemma over an event list: starting from the full
necromancer boss, if every frame leaves more than 30 health, the phase
index never exceeds 1 and phase 2 is never even scheduled. -/
theorem boss_necro_run_no_phase2 (evs : List Boss.BossEvent) (s : BossState)
    (hwf : Boss.WF s) (hcur : s.currentPhase ≤ 1) (hpend : s.pendingPhase ≠ some 2)
    (hph : s.phases = Boss.necromancerPhases) (hmax : s.maxHealth = 100)
    (hev : ∀ h, Boss.BossEvent.frame h ∈ evs → 30 < h) :
    (Boss.run s evs).currentPhase ≤ 1 ∧ (Boss.run s evs).pendingPhase ≠ some 2 := by
  induction evs generalizing s with
  | nil => exact ⟨hcur, hpend⟩
  | cons e evs ih =>
    have hstep := boss_necro_step_no_phase2 s e hwf hcur hpend hph hmax
      (fun h he => hev h (he ▸ List.mem_cons_self e evs))
    exact ih (Boss.step s e) hstep.1 hstep.2.1 hstep.2.2.1 hstep.2.2.2.1 hstep.2.2.2.2
      (fun h hm => hev h (List.mem_cons_of_mem e hm))

/-! ## Claim theorems (combat, movement, boss) -/

/-- C1: the claim states that `gainExperience` loops while
`experience ≥ threshold`, so that a single `gainExperience(250)` from
level 1 / 0 xp / threshold 100 cascades to level 3 (threshold ×1.5 twice,
leftover 0) — the same totals as any split of 250.  The code uses a single
`if`, so one call stops at level 2 with 150 leftover experience and
threshold 150, while the split `100 + 150` does reach level 3: the code
contradicts the spec's "must loop" requirement. -/
theorem C1_gainExperience_single_call_levels_once :
    (Character3D.gainExperience Character3D.initialAvatar 250).level = 2 ∧
    (Character3D.gainExperience Character3D.initialAvatar 250).experience = 150 ∧
    (Character3D.gainExperience Character3D.initialAvatar 250).experienceToNextLevel = 150 ∧
    (Character3D.gainExperience
      (Character3D.gainExperience Character3D.initialAvatar 100) 150).level = 3 := by
  norm_num [Character3D.gainExperience, Character3D.levelUp, Character3D.initialAvatar]

/-- C4: for the avatar at full health 100 with defense 5, an unblocked hit
of 20 leaves health exactly 80 (defense not applied), a blocked hit of 20
leaves health exactly 85 (reduced by defense, floor 1); health is clamped
at 0, and within a call `die()` is invoked exactly once, precisely when the
call ends with health 0. -/
theorem C4_takeDamage_block_semantics :
    (Character3D.takeDamage Character3D.initialAvatar 20).1.currentHealth = 80 ∧
    (Character3D.takeDamage
      { Character3D.initialAvatar with isBlocking := true } 20).1.currentHealth = 85 ∧
    (∀ (s : AvatarState) (amount : ℚ),
      0 ≤ (Character3D.takeDamage s amount).1.currentHealth) ∧
    (∀ (s : AvatarState) (amount : ℚ),
      (Character3D.takeDamage s amount).2 ≤ 1 ∧
      ((Character3D.takeDamage s amount).2 = 1 ↔
        (Character3D.takeDamage s amount).1.currentHealth = 0)) := by
  refine ⟨?_, ?_, ?_, ?_⟩
  · norm_num [Character3D.takeDamage, Character3D.initialAvatar]
  · norm_num [Character3D.takeDamage, Character3D.initialAvatar]
  · intro s amount
    simp only [Character3D.takeDamage]
    by_cases hle :
        s.currentHealth - (if s.isBlocking then max 1 (amount - s.defense) else amount) ≤ 0
    · rw [if_pos hle]
    · rw [if_neg hle]
      push_neg at hle
      exact le_of_lt hle
  · intro s amount
    simp only [Character3D.takeDamage]
    by_cases hle :
        s.currentHealth - (if s.isBlocking then max 1 (amount - s.defense) else amount) ≤ 0
    · rw [if_pos hle]
      exact ⟨le_rfl, by simp⟩
    · rw [if_neg hle]
      push_neg at hle
      refine ⟨Nat.zero_le 1, ?_, ?_⟩
      · intro hc
        simp at hc
      · intro hc
        exfalso
        have hc' : s.currentHealth -
            (if s.isBlocking then max 1 (amount - s.defense) else amount) = 0 := hc
        linarith

/-- C2: the claim says a fully-objective-completed quest ends Completed,
its declared successor becomes visible, a second completion attempt is a
no-op returning false, and completion fails whenever the quest is not
InProgress.  On the code: the quest does end Completed and a repeat
`completeQuest` is a no-op, but the successor is *never* revealed on the
auto-complete path — `updateObjective` writes the Completed status before
invoking `completeQuest`, whose already-Completed guard then returns before
the reveal — and `completeQuest` only rejects missing or already-Completed
quests, so even a NotStarted quest can be completed directly (which is the
only path that does reveal the successor). -/
theorem C2_autocomplete_never_reveals_successor :
    ((QuestStore.lookupQuest QuestStore.autoCompleteRun.quests "goblin_slayer").map
        Quest.status = some QuestStatus.completed) ∧
    ((QuestStore.lookupQuest QuestStore.autoCompleteRun.quests "cook_assistant").map
        Quest.isVisible = some false) ∧
    (QuestStore.completeQuest QuestStore.autoCompleteRun "goblin_slayer" =
      QuestStore.autoCompleteRun) ∧
    ((QuestStore.lookupQuest
        (QuestStore.completeQuest QuestStore.initializedStore "goblin_slayer").quests
        "goblin_slayer").map Quest.status = some QuestStatus.completed) ∧
    ((QuestStore.lookupQuest
        (QuestStore.completeQuest QuestStore.initializedStore "goblin_slayer").quests
        "cook_assistant").map Quest.isVisible = some true) := by
  decide

/-- C3: `updateObjective` on an InProgress quest with an existing objective
clamps the objective's progress at `required` (via `Math.min`), marks it
completed exactly when the clamped progress reaches `required`, leaves all
other objectives untouched, and sets the quest status to Completed iff
every objective is completed; when the quest is missing, not InProgress, or
the objective does not exist, the call changes no state. -/
theorem C3_updateObjective_clamps_and_completes :
    (∀ (st : QuestStoreState) (questId objectiveId : String) (progress : ℤ),
      QuestStore.lookupQuest st.quests questId = none →
      QuestStore.updateObjective st questId objectiveId progress = st) ∧
    (∀ (st : QuestStoreState) (questId objectiveId : String) (progress : ℤ) (q : Quest),
      QuestStore.lookupQuest st.quests questId = some q →
      q.status ≠ QuestStatus.in_progress →
      QuestStore.updateObjective st questId objectiveId progress = st) ∧
    (∀ (st : QuestStoreState) (questId objectiveId : String) (progress : ℤ) (q : Quest),
      QuestStore.lookupQuest st.quests questId = some q →
      q.objectives.findIdx? (fun o => o.id = objectiveId) = none →
      QuestStore.updateObjective st questId objectiveId progress = st) ∧
    (∀ (st : QuestStoreState) (questId objectiveId : String) (progress : ℤ)
        (q : Quest) (i : ℕ) (obj : QuestObjective),
      QuestStore.lookupQuest st.quests questId = some q →
      q.status = QuestStatus.in_progress →
      q.objectives.findIdx? (fun o => o.id = objectiveId) = some i →
      q.objectives[i]? = some obj →
      ∃ q', QuestStore.lookupQuest
          (QuestStore.updateObjective st questId objectiveId progress).quests questId =
            some q' ∧
        q'.objectives[i]? = some
          { obj with
            current := min (obj.current + progress) obj.required
            completed := decide (obj.required ≤ min (obj.current + progress) obj.required) } ∧
        min (obj.current + progress) obj.required ≤ obj.required ∧
        (∀ j, j ≠ i → q'.objectives[j]? = q.objectives[j]?) ∧
        (q'.status = QuestStatus.completed ↔ q'.objectives.all (·.completed) = true)) := by
  refine ⟨?_, ?_, ?_, ?_⟩
  · intro st questId objectiveId progress hq
    simp only [QuestStore.updateObjective, hq]
  · intro st questId objectiveId progress q hq hstatus
    simp only [QuestStore.updateObjective, hq, if_pos hstatus]
  · intro st questId objectiveId progress q hq hfind
    by_cases hstatus : q.status = QuestStatus.in_progress
    · have hnn : ¬(q.status ≠ QuestStatus.in_progress) := by simp [hstatus]
      simp only [QuestStore.updateObjective, hq, if_neg hnn, hfind]
    · simp only [QuestStore.updateObjective, hq, if_pos hstatus]
  · intro st questId objectiveId progress q i obj hq hstatus hfind hobj
    obtain ⟨hi, -⟩ := List.getElem?_eq_some.mp hobj
    rw [updateObjective_closed_form st questId objectiveId progress q i obj
      hq hstatus hfind hobj]
    refine ⟨_, lookupQuest_setQuest_self _ _ _, ?_, ?_, ?_, ?_⟩
    · exact List.getElem?_set_eq_of_lt _ hi
    · exact min_le_right _ _
    · intro j hj
      exact List.getElem?_set_ne (fun h => hj h.symm)
    · by_cases hall :
          (q.objectives.set i
            { obj with
              current := min (obj.current + progress) obj.required
              completed :=
                decide (obj.required ≤ min (obj.current + progress) obj.required) }).all
            (·.completed) = true
      · simp [hall]
      · simp [hall]

/-- Witness for C3: the update case applied to the freshly started
`goblin_slayer` quest, progressing `kill_goblins` by 2 (clamped result 2 of
5, objective not yet completed). -/
theorem C3_updateObjective_clamps_and_completes_witness :
    ∃ q', QuestStore.lookupQuest
        (QuestStore.updateObjective
          ((QuestStore.startQuest QuestStore.initializedStore "goblin_slayer").1)
          "goblin_slayer" "kill_goblins" 2).quests "goblin_slayer" = some q' ∧
      q'.objectives[0]? = some
        { id := "kill_goblins", targetId := "goblin", required := 5
          current := min ((0 : ℤ) + 2) 5
          completed := decide ((5 : ℤ) ≤ min ((0 : ℤ) + 2) 5) } ∧
      min ((0 : ℤ) + 2) 5 ≤ (5 : ℤ) ∧
      (∀ j, j ≠ 0 → q'.objectives[j]? =
        ({ id := "goblin_slayer", level := 1, status := QuestStatus.in_progress
           objectives :=
             [ { id := "kill_goblins", targetId := "goblin",
                 required := 5, current := 0, completed := false },
               { id := "collect_goblin_mail", targetId := "goblin_mail",
                 required := 1, current := 0, completed := false } ]
           nextQuestId := some "cook_assistant", isVisible := true } : Quest).objectives[j]?) ∧
      (q'.status = QuestStatus.completed ↔ q'.objectives.all (·.completed) = true) :=
  C3_updateObjective_clamps_and_completes.2.2.2
    ((QuestStore.startQuest QuestStore.initializedStore "goblin_slayer").1)
    "goblin_slayer" "kill_goblins" 2
    { id := "goblin_slayer", level := 1, status := QuestStatus.in_progress
      objectives :=
        [ { id := "kill_goblins", targetId := "goblin",
            required := 5, current := 0, completed := false },
          { id := "collect_goblin_mail", targetId := "goblin_mail",
            required := 1, current := 0, completed := false } ]
      nextQuestId := some "cook_assistant", isVisible := true }
    0
    { id := "kill_goblins", targetId := "goblin", required := 5, current := 0,
      completed := false }
    (by decide) (by decide) (by decide) (by decide)

/-- C6: the claim states that a dead combatant is a silent no-op receiver
of `takeDamage` and `gainExperience`.  `Enemy.takeDamage` does guard on
`isDead`, but `Character3D` has no alive flag at all: its `gainExperience`
runs unconditionally, so an avatar at 0 health still gains experience,
levels up — and is even restored to full (grown) health by the level-up. -/
theorem C6_dead_avatar_still_gains_experience :
    (∀ (e : EnemyState) (amount : ℚ), e.isDead = true → Enemy.takeDamage e amount = e) ∧
    (Character3D.gainExperience
      { Character3D.initialAvatar with currentHealth := 0 } 100).level = 2 ∧
    (Character3D.gainExperience
      { Character3D.initialAvatar with currentHealth := 0 } 100).experience = 0 ∧
    (Character3D.gainExperience
      { Character3D.initialAvatar with currentHealth := 0 } 100).currentHealth = 110 := by
  refine ⟨fun e amount h => ?_, ?_, ?_, ?_⟩
  · unfold Enemy.takeDamage
    simp [h]
  all_goals
    norm_num [Character3D.gainExperience, Character3D.levelUp, Character3D.initialAvatar]

/-- Witness for C6: the enemy half applied to a concrete dead goblin. -/
theorem C6_dead_avatar_still_gains_experience_witness :
    Enemy.takeDamage { Enemy.spawn Enemy.GOBLIN with isDead := true } 5 =
      { Enemy.spawn Enemy.GOBLIN with isDead := true } :=
  C6_dead_avatar_still_gains_experience.1
    { Enemy.spawn Enemy.GOBLIN with isDead := true } 5 rfl

/-- C10: on every per-frame update the avatar's mana regenerates by
`2·delta`, capped at `maxMana`, independently of the dodging/blocking flags
and of the current velocity (unlike stamina, whose regeneration is
conditional). -/
theorem C10_mana_regeneration_unconditional :
    ∀ (s : AvatarState) (velLenSq delta : ℚ),
      (Character3D.regenTail s velLenSq delta).mana = min (s.mana + 2 * delta) s.maxMana ∧
      (Character3D.regenTail s velLenSq delta).mana ≤ s.maxMana ∧
      (∀ (d b : Bool) (v : ℚ),
        (Character3D.regenTail { s with isDodging := d, isBlocking := b } v delta).mana =
          (Character3D.regenTail s velLenSq delta).mana) := by
  have key : ∀ (t : AvatarState) (v δ : ℚ),
      (Character3D.regenTail t v δ).mana = min (t.mana + 2 * δ) t.maxMana := by
    intro t v δ
    simp only [Character3D.regenTail]
    split <;>
      (show (if t.maxMana < t.mana + 2 * δ then t.maxMana else t.mana + 2 * δ) =
          min (t.mana + 2 * δ) t.maxMana
       rcases lt_or_le t.maxMana (t.mana + 2 * δ) with h | h
       · rw [if_pos h, min_eq_right (le_of_lt h)]
       · rw [if_neg (not_lt.mpr h), min_eq_left h])
  intro s velLenSq delta
  refine ⟨key s velLenSq delta, ?_, ?_⟩
  · rw [key s velLenSq delta]; exact min_le_right _ _
  · intro d b v
    rw [key _ v delta, key s velLenSq delta]

/-- C8: the per-frame collision resolution: a candidate position whose
bounding box overlaps no registered collider is always accepted as the full
move; one that overlaps some collider is rejected as a full move, after
which the X-only and Z-only slide moves are tested independently (both
against the pre-move position) and each is applied iff it is itself
collision-free; and `checkCollision` holds exactly when the character's box
overlaps some collider's box. -/
theorem C8_move_collision_resolution :
    (∀ (groundY oldX oldZ newX newZ : ℚ) (cols : List Box3),
      Movement.checkCollision groundY newX newZ cols = false →
      Movement.moveStep groundY oldX oldZ newX newZ cols = (newX, newZ)) ∧
    (∀ (groundY oldX oldZ newX newZ : ℚ) (cols : List Box3),
      Movement.checkCollision groundY newX newZ cols = true →
      Movement.moveStep groundY oldX oldZ newX newZ cols =
        ((if Movement.checkCollision groundY newX oldZ cols = false then newX else oldX),
         (if Movement.checkCollision groundY oldX newZ cols = false then newZ else oldZ))) ∧
    (∀ (groundY x z : ℚ) (cols : List Box3),
      Movement.checkCollision groundY x z cols = true ↔
        ∃ b ∈ cols, (Movement.characterBox groundY x z).intersects b = true) := by
  refine ⟨?_, ?_, ?_⟩
  · intro groundY oldX oldZ newX newZ cols h
    simp [Movement.moveStep, h]
  · intro groundY oldX oldZ newX newZ cols h
    by_cases h1 : Movement.checkCollision groundY newX oldZ cols = false
    · by_cases h2 : Movement.checkCollision groundY oldX newZ cols = false
      · simp [Movement.moveStep, h, h1, h2]
      · simp [Movement.moveStep, h, h1, h2]
    · by_cases h2 : Movement.checkCollision groundY oldX newZ cols = false
      · simp [Movement.moveStep, h, h1, h2]
      · simp [Movement.moveStep, h, h1, h2]
  · intro groundY x z cols
    simp [Movement.checkCollision, List.any_eq_true]

/-- Witness for C8: against a wall occupying `x ∈ [−10,10], z ∈ [1,2]`, the
far position `(5,5)` is accepted outright, while the move from the origin
to `(0.4, 1)` overlaps the wall and resolves through the two slide
attempts. -/
theorem C8_move_collision_resolution_witness :
    (Movement.checkCollision 0 5 5
        [{ min := { x := -10, y := 0, z := 1 }, max := { x := 10, y := 3, z := 2 } }] = false ∧
      Movement.moveStep 0 0 0 5 5
        [{ min := { x := -10, y := 0, z := 1 }, max := { x := 10, y := 3, z := 2 } }] =
        (5, 5)) ∧
    (Movement.checkCollision 0 (2/5) 1
        [{ min := { x := -10, y := 0, z := 1 }, max := { x := 10, y := 3, z := 2 } }] = true ∧
      Movement.moveStep 0 0 0 (2/5) 1
        [{ min := { x := -10, y := 0, z := 1 }, max := { x := 10, y := 3, z := 2 } }] =
        ((if Movement.checkCollision 0 (2/5) 0
            [{ min := { x := -10, y := 0, z := 1 }, max := { x := 10, y := 3, z := 2 } }] =
              false
          then (2/5 : ℚ) else 0),
         (if Movement.checkCollision 0 0 1
            [{ min := { x := -10, y := 0, z := 1 }, max := { x := 10, y := 3, z := 2 } }] =
              false
          then (1 : ℚ) else 0))) := by
  have hfree : Movement.checkCollision 0 5 5
      [{ min := { x := -10, y := 0, z := 1 }, max := { x := 10, y := 3, z := 2 } }] = false := by
    norm_num [Movement.checkCollision, Movement.characterBox, Box3.intersects]
  have hhit : Movement.checkCollision 0 (2/5) 1
      [{ min := { x := -10, y := 0, z := 1 }, max := { x := 10, y := 3, z := 2 } }] = true := by
    norm_num [Movement.checkCollision, Movement.characterBox, Box3.intersects]
  exact ⟨⟨hfree, C8_move_collision_resolution.1 0 0 0 5 5 _ hfree⟩,
    hhit, C8_move_collision_resolution.2.1 0 0 0 (2/5) 1 _ hhit⟩

/-- C7: the boss phase machine with thresholds `[1.0, 0.7, 0.3]`: the phase
index is monotone non-decreasing over any event sequence; while
`phaseTransitioning` is locked, frames never start (or change) a pending
transition even if health keeps dropping; dropping from 100% to 65% starts
exactly one transition, to phase index 1 — repeated frames at 65% (or even
at 20% during the lock window) start nothing new, the timer commit lands in
phase 1, and afterwards 65% health triggers nothing further; and phase
index 2 is unreachable while every frame leaves health above 30%. -/
theorem C7_boss_phase_machine :
    (∀ (s : BossState) (evs : List Boss.BossEvent), Boss.WF s →
      s.currentPhase ≤ (Boss.run s evs).currentPhase) ∧
    (∀ (s : BossState) (newHealth : ℚ), s.phaseTransitioning = true →
      (Boss.step s (.frame newHealth)).pendingPhase = s.pendingPhase ∧
      (Boss.step s (.frame newHealth)).currentPhase = s.currentPhase ∧
      (Boss.step s (.frame newHealth)).phaseTransitioning = true) ∧
    ((Boss.run Boss.bossAtFull [.frame 65]).pendingPhase = some 1 ∧
      (Boss.run Boss.bossAtFull [.frame 65]).currentPhase = 0 ∧
      (Boss.run Boss.bossAtFull [.frame 65]).phaseTransitioning = true) ∧
    ((Boss.run Boss.bossAtFull [.frame 65, .frame 65]).pendingPhase = some 1 ∧
      (Boss.run Boss.bossAtFull [.frame 65, .frame 20]).pendingPhase = some 1 ∧
      (Boss.run Boss.bossAtFull [.frame 65, .frame 20]).currentPhase = 0) ∧
    ((Boss.run Boss.bossAtFull [.frame 65, .fire]).currentPhase = 1 ∧
      (Boss.run Boss.bossAtFull [.frame 65, .fire]).phaseTransitioning = false ∧
      (Boss.run Boss.bossAtFull [.frame 65, .fire]).pendingPhase = none) ∧
    ((Boss.run Boss.bossAtFull [.frame 65, .fire, .frame 65]).currentPhase = 1 ∧
      (Boss.run Boss.bossAtFull [.frame 65, .fire, .frame 65]).pendingPhase = none) ∧
    (∀ (evs : List Boss.BossEvent),
      (∀ h, Boss.BossEvent.frame h ∈ evs → 30 < h) →
      (Boss.run Boss.bossAtFull evs).currentPhase ≤ 1 ∧
      (Boss.run Boss.bossAtFull evs).pendingPhase ≠ some 2) := by
  refine ⟨?_, ?_, ?_, ?_, ?_, ?_, ?_⟩
  · intro s evs hwf
    exact (boss_run_preserves evs s hwf).2
  · intro s newHealth htr
    rw [boss_frame_locked s newHealth htr]
    exact ⟨rfl, rfl, htr⟩
  · norm_num [Boss.run, Boss.step, Boss.checkPhaseTransition, Boss.startPhaseTransition,
      Boss.finishPhaseTransition, Boss.bossAtFull, Boss.necromancerPhases, List.cons_ne_nil]
  · norm_num [Boss.run, Boss.step, Boss.checkPhaseTransition, Boss.startPhaseTransition,
      Boss.finishPhaseTransition, Boss.bossAtFull, Boss.necromancerPhases, List.cons_ne_nil]
  · norm_num [Boss.run, Boss.step, Boss.checkPhaseTransition, Boss.startPhaseTransition,
      Boss.finishPhaseTransition, Boss.bossAtFull, Boss.necromancerPhases, List.cons_ne_nil]
  · norm_num [Boss.run, Boss.step, Boss.checkPhaseTransition, Boss.startPhaseTransition,
      Boss.finishPhaseTransition, Boss.bossAtFull, Boss.necromancerPhases, List.cons_ne_nil]
  · intro evs hev
    exact boss_necro_run_no_phase2 evs Boss.bossAtFull
      (by simp [Boss.WF, Boss.bossAtFull])
      (by norm_num [Boss.bossAtFull])
      (by simp [Boss.bossAtFull])
      rfl rfl hev

/-- Witness for C7: the universally quantified parts applied to concrete
inputs — monotonicity from the full boss over `[frame 65, fire]`, the
transition lock on a boss frozen mid-transition hit down to 20 health, and
the no-phase-2 bound over the single frame at 65. -/
theorem C7_boss_phase_machine_witness :
    (Boss.WF Boss.bossAtFull ∧
      Boss.bossAtFull.currentPhase ≤
        (Boss.run Boss.bossAtFull [.frame 65, .fire]).currentPhase) ∧
    ((Boss.step { Boss.bossAtFull with phaseTransitioning := true, pendingPhase := some 1 }
        (.frame 20)).pendingPhase =
      ({ Boss.bossAtFull with phaseTransitioning := true, pendingPhase := some 1 } : BossState).pendingPhase ∧
      (Boss.step { Boss.bossAtFull with phaseTransitioning := true, pendingPhase := some 1 }
        (.frame 20)).phaseTransitioning = true) ∧
    ((Boss.run Boss.bossAtFull [.frame 65]).currentPhase ≤ 1 ∧
      (Boss.run Boss.bossAtFull [.frame 65]).pendingPhase ≠ some 2) := by
  have hwf : Boss.WF Boss.bossAtFull := by simp [Boss.WF, Boss.bossAtFull]
  refine ⟨⟨hwf, C7_boss_phase_machine.1 Boss.bossAtFull [.frame 65, .fire] hwf⟩, ?_, ?_⟩
  · have h := C7_boss_phase_machine.2.1
      { Boss.bossAtFull with phaseTransitioning := true, pendingPhase := some 1 } 20 rfl
    exact ⟨h.1, h.2.2⟩
  · exact C7_boss_phase_machine.2.2.2.2.2.2 [.frame 65]
      (by intro h hm; simp at hm; subst hm; norm_num)

/-- C5 counterexample: the claim says every combatant's health never goes
below 0, but `Enemy.takeDamage` has no clamp: a freshly spawned goblin
(30 health, 2 defense) hit for 100 ends at health −68. -/
theorem C5_counterexample_goblin_negative_health :
    (Enemy.takeDamage (Enemy.spawn Enemy.GOBLIN) 100).currentHealth = -68 ∧
    (Enemy.takeDamage (Enemy.spawn Enemy.GOBLIN) 100).currentHealth < 0 := by
  norm_num [Enemy.takeDamage, Enemy.die, Enemy.spawn, Enemy.GOBLIN]

/-- C5 (amended): under sequences of positive-damage `takeDamage` calls the
avatar's health stays within `[0, maxHealth]`; the enemy's health never
increases and never exceeds `maxHealth`, but is *not* clamped at 0 — it can
end negative on the killing blow — and health `≤ 0` implies the enemy is
dead (further calls being no-ops). -/
theorem C5_health_bounds_amended :
    (∀ (s : AvatarState) (ds : List ℚ),
      (∀ d ∈ ds, 0 < d) → 0 ≤ s.currentHealth → s.currentHealth ≤ s.maxHealth →
      0 ≤ (ds.foldl (fun t d => (Character3D.takeDamage t d).1) s).currentHealth ∧
      (ds.foldl (fun t d => (Character3D.takeDamage t d).1) s).currentHealth ≤
        (ds.foldl (fun t d => (Character3D.takeDamage t d).1) s).maxHealth) ∧
    (∀ (e : EnemyState) (ds : List ℚ),
      (e.currentHealth ≤ 0 → e.isDead = true) → e.currentHealth ≤ e.maxHealth →
      (ds.foldl Enemy.takeDamage e).currentHealth ≤ (ds.foldl Enemy.takeDamage e).maxHealth ∧
      ((ds.foldl Enemy.takeDamage e).currentHealth ≤ 0 →
        (ds.foldl Enemy.takeDamage e).isDead = true)) := by
  constructor
  · intro s ds hds h0 h1
    exact avatar_fold_bounds ds s hds h0 h1
  · intro e ds hinv hmax
    have h := enemy_fold_bounds ds e hinv
    exact ⟨h.2.1 ▸ le_trans h.1 hmax, h.2.2⟩

/-- Witness for C5 (amended): both halves applied to concrete inputs — the
fresh avatar hit for 20 then 200, and a fresh goblin hit for 100. -/
theorem C5_health_bounds_amended_witness :
    (0 ≤ (([20, 200] : List ℚ).foldl
        (fun t d => (Character3D.takeDamage t d).1) Character3D.initialAvatar).currentHealth ∧
      (([20, 200] : List ℚ).foldl
        (fun t d => (Character3D.takeDamage t d).1) Character3D.initialAvatar).currentHealth ≤
      (([20, 200] : List ℚ).foldl
        (fun t d => (Character3D.takeDamage t d).1) Character3D.initialAvatar).maxHealth) ∧
    ((([100] : List ℚ).foldl Enemy.takeDamage (Enemy.spawn Enemy.GOBLIN)).currentHealth ≤
      (([100] : List ℚ).foldl Enemy.takeDamage (Enemy.spawn Enemy.GOBLIN)).maxHealth ∧
      ((([100] : List ℚ).foldl Enemy.takeDamage (Enemy.spawn Enemy.GOBLIN)).currentHealth ≤ 0 →
        (([100] : List ℚ).foldl Enemy.takeDamage (Enemy.spawn Enemy.GOBLIN)).isDead = true)) :=
  ⟨C5_health_bounds_amended.1 Character3D.initialAvatar [20, 200]
      (by intro d hd; fin_cases hd <;> norm_num)
      (by norm_num [Character3D.initialAvatar])
      (by norm_num [Character3D.initialAvatar]),
    C5_health_bounds_amended.2 (Enemy.spawn Enemy.GOBLIN) [100]
      (by norm_num [Enemy.spawn, Enemy.GOBLIN])
      (by norm_num [Enemy.spawn, Enemy.GOBLIN])⟩

end MedievalGame
